import Mathlib

/-!
Verification of the station proximity pipeline
(`station_proximity_table.py`).

The computational core consists of four functions:
* `haversine` — great-circle distance on a sphere of radius 6371 km,
  taking latitude/longitude in degrees;
* `compute_pairwise_distances` — the all-pairs distance relation over a
  station set (no self-pairs, keyed by ordered name pairs);
* `find_elevation_matches` — per station, the list of other stations whose
  elevation lies within a tolerance band;
* `create_station_table` — the join/format step producing one output
  record per station with semicolon-joined `Range` and `Elevation` strings.

Numbers are modelled as exact reals (the source computes with IEEE
doubles; rounding is abstracted away).  `math.atan2` is modelled by the
piecewise `atan2` below.  The pandas distance `DataFrame` is modelled as
an association list keyed by ordered pairs of station names: an absent
key plays the role of the `NaN` diagonal (a `NaN` never satisfies
`<= max_distance`, and an absent key never passes the range filter).
-/

open scoped Classical

structure Station where
  station_name : String
  latitude : ℝ
  longitude : ℝ
  elevation : ℝ

structure OutputRecord where
  station_name : String
  latitude : ℝ
  longitude : ℝ
  elevation : ℝ
  Range : String
  Elevation : String

/-- Model of Python `math.atan2 y x` (signed zeros ignored). -/
noncomputable def atan2 (y x : ℝ) : ℝ :=
  if 0 < x then Real.arctan (y / x)
  else if x < 0 then
    if 0 ≤ y then Real.arctan (y / x) + Real.pi
    else Real.arctan (y / x) - Real.pi
  else
    if 0 < y then Real.pi / 2
    else if y < 0 then -(Real.pi / 2)
    else 0

/-- `haversine(lat1, lon1, lat2, lon2)` from the source: convert the four
degree inputs to radians (`radians x = x * pi / 180`), form
`a = sin(dlat/2)^2 + cos(lat1) * cos(lat2) * sin(dlon/2)^2` and return
`R * 2 * atan2(sqrt a, sqrt (1 - a))` with `R = 6371`. -/
noncomputable def haversine (lat1 lon1 lat2 lon2 : ℝ) : ℝ :=
  let R : ℝ := 6371
  let lat1r := lat1 * (Real.pi / 180)
  let lon1r := lon1 * (Real.pi / 180)
  let lat2r := lat2 * (Real.pi / 180)
  let lon2r := lon2 * (Real.pi / 180)
  let dlat := lat2r - lat1r
  let dlon := lon2r - lon1r
  let a := Real.sin (dlat / 2) ^ 2 +
    Real.cos lat1r * Real.cos lat2r * Real.sin (dlon / 2) ^ 2
  let c := 2 * atan2 (Real.sqrt a) (Real.sqrt (1 - a))
  R * c

/-- First-match association-list lookup (models both the pandas
`.loc` lookup on the distance frame and the Python `dict` lookup). -/
def assocLookup {κ β : Type} [DecidableEq κ] (k : κ) : List (κ × β) → Option β
  | [] => none
  | p :: rest => if k = p.1 then some p.2 else assocLookup k rest

/-- `compute_pairwise_distances(stations)`: for every ordered pair of rows
with distinct positions (`iterrows` indices `i != j`), record
`haversine` of their coordinates under the key
`(row1.station_name, row2.station_name)`. -/
noncomputable def compute_pairwise_distances (stations : List Station) :
    List ((String × String) × ℝ) :=
  stations.enum.flatMap fun ir =>
    stations.enum.flatMap fun jr =>
      if ir.1 ≠ jr.1 then
        [((ir.2.station_name, jr.2.station_name),
          haversine ir.2.latitude ir.2.longitude jr.2.latitude jr.2.longitude)]
      else []

/-- `find_elevation_matches(stations, elevation_tolerance)`: for each row,
keep every station whose elevation is within the closed tolerance band
around the row's elevation and whose name differs, in station-set order,
and record the list of their names under the row's name. -/
noncomputable def find_elevation_matches (stations : List Station)
    (elevation_tolerance : ℝ) : List (String × List String) :=
  stations.map fun row =>
    (row.station_name,
      (stations.filter fun t =>
        decide (t.elevation ≥ row.elevation - elevation_tolerance) &&
        decide (t.elevation ≤ row.elevation + elevation_tolerance) &&
        decide (t.station_name ≠ row.station_name)).map Station.station_name)

/-- The `nearby` list computed inside `create_station_table` for one
station: iterate the distance frame's index (the station names in input
order), keep those whose recorded distance to `station` is `≤
max_distance` (an absent entry — the `NaN` diagonal — never qualifies),
then drop `station` itself. -/
noncomputable def rangeList (stations : List Station)
    (distances : List ((String × String) × ℝ))
    (max_distance : ℝ) (station : String) : List String :=
  ((stations.map Station.station_name).filter fun t =>
      match assocLookup (t, station) distances with
      | some d => decide (d ≤ max_distance)
      | none => false).filter fun t => decide (t ≠ station)

/-- The `Elevation` list for one station: the dict entry recorded by
`find_elevation_matches` for that station's name. -/
def elevListOf (elevation_matches : List (String × List String))
    (station : String) : List String :=
  (assocLookup station elevation_matches).getD []

/-- `create_station_table(stations, distances, elevation_matches,
max_distance)`: one output record per station, in input order, carrying
the original attributes plus the `"; "`-joined `Range` and `Elevation`
name lists. -/
noncomputable def create_station_table (stations : List Station)
    (distances : List ((String × String) × ℝ))
    (elevation_matches : List (String × List String))
    (max_distance : ℝ) : List OutputRecord :=
  stations.map fun s =>
    { station_name := s.station_name
      latitude := s.latitude
      longitude := s.longitude
      elevation := s.elevation
      Range := String.intercalate "; " (rangeList stations distances max_distance s.station_name)
      Elevation := String.intercalate "; " (elevListOf elevation_matches s.station_name) }

/-- The whole pipeline as run by `main`: distances, elevation matches,
then the table, with tolerance `tol` and range threshold `maxd`. -/
noncomputable def run_pipeline (stations : List Station) (tol maxd : ℝ) :
    List OutputRecord :=
  create_station_table stations (compute_pairwise_distances stations)
    (find_elevation_matches stations tol) maxd

/-! ### Properties of the distance function -/

lemma haversine_self (lat lon : ℝ) : haversine lat lon lat lon = 0 := by
  simp [haversine, atan2, Real.arctan_zero]

lemma sin_half_sub_sq (u v : ℝ) :
    Real.sin ((u - v) / 2) ^ 2 = Real.sin ((v - u) / 2) ^ 2 := by
  rw [show (u - v) / 2 = -((v - u) / 2) by ring, Real.sin_neg]
  ring

lemma haversine_comm (lat1 lon1 lat2 lon2 : ℝ) :
    haversine lat1 lon1 lat2 lon2 = haversine lat2 lon2 lat1 lon1 := by
  simp only [haversine]
  rw [sin_half_sub_sq (lat2 * (Real.pi / 180)) (lat1 * (Real.pi / 180)),
    sin_half_sub_sq (lon2 * (Real.pi / 180)) (lon1 * (Real.pi / 180)),
    mul_comm (Real.cos (lat1 * (Real.pi / 180))) (Real.cos (lat2 * (Real.pi / 180)))]

/-- On the equator the haversine distance between longitudes
`lon1 ≤ lon2` less than `180` degrees apart is the arc
`6371 * (lon2 - lon1) * pi / 180`. -/
lemma haversine_equator (lon1 lon2 : ℝ) (h1 : lon1 ≤ lon2) (h2 : lon2 - lon1 < 180) :
    haversine 0 lon1 0 lon2 = 6371 * ((lon2 - lon1) * Real.pi / 180) := by
  have hpi := Real.pi_pos
  have hθ0 : 0 ≤ (lon2 - lon1) * Real.pi / 360 :=
    div_nonneg (mul_nonneg (by linarith) hpi.le) (by norm_num)
  have hθlt : (lon2 - lon1) * Real.pi / 360 < Real.pi / 2 := by
    rw [div_lt_div_iff₀ (by norm_num) (by norm_num)]
    nlinarith
  have hcos : 0 < Real.cos ((lon2 - lon1) * Real.pi / 360) :=
    Real.cos_pos_of_mem_Ioo ⟨by linarith, hθlt⟩
  have hsin : 0 ≤ Real.sin ((lon2 - lon1) * Real.pi / 360) :=
    Real.sin_nonneg_of_nonneg_of_le_pi hθ0 (by linarith)
  have hdlon : (lon2 * (Real.pi / 180) - lon1 * (Real.pi / 180)) / 2 =
      (lon2 - lon1) * Real.pi / 360 := by ring
  simp only [haversine, zero_mul, sub_self, zero_div, Real.sin_zero, Real.cos_zero,
    one_mul, hdlon]
  rw [show (0:ℝ) ^ 2 + Real.sin ((lon2 - lon1) * Real.pi / 360) ^ 2 =
      Real.sin ((lon2 - lon1) * Real.pi / 360) ^ 2 by ring]
  rw [Real.sqrt_sq hsin, ← Real.cos_sq' , Real.sqrt_sq hcos.le]
  rw [atan2, if_pos hcos, ← Real.tan_eq_sin_div_cos,
    Real.arctan_tan (by linarith) hθlt]
  ring

lemma haversine_equator_gt_100 (lon1 lon2 : ℝ) (h1 : lon1 ≤ lon2)
    (h2 : lon2 - lon1 < 180) (h3 : 1 ≤ lon2 - lon1) :
    100 < haversine 0 lon1 0 lon2 := by
  rw [haversine_equator lon1 lon2 h1 h2]
  have h3pi : (3:ℝ) < Real.pi := Real.pi_gt_three
  nlinarith

/-! ### Association-list lookup lemmas -/

lemma assocLookup_mem {κ β : Type} [DecidableEq κ] {l : List (κ × β)} {k : κ} {v : β}
    (h : assocLookup k l = some v) : (k, v) ∈ l := by
  induction l with
  | nil => simp [assocLookup] at h
  | cons p rest ih =>
    obtain ⟨p1, p2⟩ := p
    simp only [assocLookup] at h
    by_cases hk : k = p1
    · subst hk
      rw [if_pos rfl] at h
      cases Option.some.inj h
      exact List.mem_cons_self _ _
    · rw [if_neg hk] at h
      exact List.mem_cons_of_mem _ (ih h)

lemma assocLookup_eq_some_of {κ β : Type} [DecidableEq κ] {l : List (κ × β)} {k : κ} {v : β}
    (hex : ∃ v0, (k, v0) ∈ l) (huniq : ∀ v0, (k, v0) ∈ l → v0 = v) :
    assocLookup k l = some v := by
  induction l with
  | nil => rcases hex with ⟨v0, h⟩; cases h
  | cons p rest ih =>
    simp only [assocLookup]
    by_cases hk : k = p.1
    · rw [if_pos hk]
      have hpmem : (k, p.2) ∈ p :: rest := by
        rw [hk]
        exact List.mem_cons_self _ _
      rw [huniq p.2 hpmem]
    · rw [if_neg hk]
      apply ih
      · rcases hex with ⟨v0, h0⟩
        rcases List.mem_cons.mp h0 with h | h
        · exact absurd (congrArg Prod.fst h) hk
        · exact ⟨v0, h⟩
      · intro v0 h0
        exact huniq v0 (List.mem_cons_of_mem _ h0)

lemma assocLookup_eq_none {κ β : Type} [DecidableEq κ] {l : List (κ × β)} {k : κ}
    (h : ∀ v, (k, v) ∈ l → False) : assocLookup k l = none := by
  induction l with
  | nil => rfl
  | cons p rest ih =>
    simp only [assocLookup]
    by_cases hk : k = p.1
    · exact absurd (h p.2 (by rw [hk]; exact List.mem_cons_self _ _)) not_false
    · rw [if_neg hk]
      exact ih fun v hv => h v (List.mem_cons_of_mem _ hv)

/-- Looking up a key built by mapping a station list to
`(name, f station)` pairs, under unique names, returns `f` of the unique
station with that name. -/
lemma assocLookup_map_self {β : Type} {stations : List Station} {f : Station → β}
    {a : Station} (hnodup : (stations.map Station.station_name).Nodup)
    (ha : a ∈ stations) :
    assocLookup a.station_name (stations.map fun r => (r.station_name, f r)) =
      some (f a) := by
  induction stations with
  | nil => cases ha
  | cons s rest ih =>
    rw [List.map_cons, List.nodup_cons] at hnodup
    rcases List.mem_cons.mp ha with rfl | hmem
    · simp [assocLookup]
    · have hne : a.station_name ≠ s.station_name := by
        intro h
        exact hnodup.1 (h ▸ List.mem_map_of_mem Station.station_name hmem)
      rw [List.map_cons]
      simp only [assocLookup, if_neg hne]
      exact ih hnodup.2 hmem

lemma mem_of_getElem?_eq_some {α : Type} {l : List α} {i : ℕ} {a : α}
    (h : l[i]? = some a) : a ∈ l := by
  obtain ⟨hlt, rfl⟩ := List.getElem?_eq_some_iff.mp h
  exact List.getElem_mem hlt

/-! ### The distance relation -/

/-- Membership in the pairwise-distance relation: exactly the entries
generated by a pair of row positions `i ≠ j`. -/
lemma mem_cpd_iff {stations : List Station} {p : (String × String) × ℝ} :
    p ∈ compute_pairwise_distances stations ↔
      ∃ (i j : ℕ) (a b : Station), i ≠ j ∧ stations[i]? = some a ∧
        stations[j]? = some b ∧
        p = ((a.station_name, b.station_name),
          haversine a.latitude a.longitude b.latitude b.longitude) := by
  simp only [compute_pairwise_distances, List.mem_flatMap,
    List.mem_enum_iff_getElem?]
  constructor
  · rintro ⟨ir, hir, jr, hjr, hp⟩
    by_cases h : ir.1 = jr.1
    · simp [h] at hp
    · rw [if_pos h] at hp
      rcases List.mem_singleton.mp hp with rfl
      exact ⟨ir.1, jr.1, ir.2, jr.2, h, hir, hjr, rfl⟩
  · rintro ⟨i, j, a, b, hij, hi, hj, rfl⟩
    refine ⟨(i, a), hi, (j, b), hj, ?_⟩
    rw [if_pos hij]
    exact List.mem_singleton.mpr rfl

/-- Under unique station names, the relation's entry for an ordered pair
of distinct stations is exactly the direct haversine evaluation. -/
lemma cpd_lookup_eq {stations : List Station}
    (hnodup : (stations.map Station.station_name).Nodup)
    {a b : Station} (ha : a ∈ stations) (hb : b ∈ stations) (hab : a ≠ b) :
    assocLookup (a.station_name, b.station_name)
      (compute_pairwise_distances stations) =
      some (haversine a.latitude a.longitude b.latitude b.longitude) := by
  apply assocLookup_eq_some_of
  · obtain ⟨i, hi⟩ := List.mem_iff_getElem?.mp ha
    obtain ⟨j, hj⟩ := List.mem_iff_getElem?.mp hb
    have hij : i ≠ j := by
      intro h
      rw [h, hj] at hi
      exact hab (Option.some.inj hi).symm
    exact ⟨_, mem_cpd_iff.mpr ⟨i, j, a, b, hij, hi, hj, rfl⟩⟩
  · rintro v0 hmem
    obtain ⟨i, j, a', b', hij, hi', hj', hp⟩ := mem_cpd_iff.mp hmem
    obtain ⟨hk, hv⟩ := Prod.mk.injEq .. ▸ hp
    obtain ⟨hka, hkb⟩ := Prod.mk.injEq .. ▸ hk
    have ha' : a' ∈ stations := mem_of_getElem?_eq_some hi'
    have hb' : b' ∈ stations := mem_of_getElem?_eq_some hj'
    have haa : a' = a := List.inj_on_of_nodup_map hnodup ha' ha hka.symm
    have hbb : b' = b := List.inj_on_of_nodup_map hnodup hb' hb hkb.symm
    subst haa
    subst hbb
    exact hv

/-- Under unique station names, the relation has no entry at a self pair
`(n, n)`. -/
lemma cpd_lookup_self {stations : List Station}
    (hnodup : (stations.map Station.station_name).Nodup) (n : String) :
    assocLookup (n, n) (compute_pairwise_distances stations) = none := by
  apply assocLookup_eq_none
  intro v hmem
  obtain ⟨i, j, a, b, hij, hi, hj, hp⟩ := mem_cpd_iff.mp hmem
  obtain ⟨hk, hv⟩ := Prod.mk.injEq .. ▸ hp
  obtain ⟨hka, hkb⟩ := Prod.mk.injEq .. ▸ hk
  have hi' : (stations.map Station.station_name)[i]? = some a.station_name := by
    rw [List.getElem?_map, hi]
    rfl
  have hj' : (stations.map Station.station_name)[j]? = some b.station_name := by
    rw [List.getElem?_map, hj]
    rfl
  have hlen : i < (stations.map Station.station_name).length := by
    rw [List.length_map]
    exact (List.getElem?_eq_some_iff.mp hi).choose
  exact hij (List.getElem?_inj hlen hnodup (by rw [hi', hj', ← hka, ← hkb]))

/-! ### The elevation matcher -/

/-- Under unique names, the recorded elevation-match entry for a station
is the filtered name list computed from its own row. -/
lemma elevListOf_find {stations : List Station}
    (hnodup : (stations.map Station.station_name).Nodup)
    {a : Station} (ha : a ∈ stations) (tol : ℝ) :
    elevListOf (find_elevation_matches stations tol) a.station_name =
      (stations.filter fun t =>
        decide (t.elevation ≥ a.elevation - tol) &&
        decide (t.elevation ≤ a.elevation + tol) &&
        decide (t.station_name ≠ a.station_name)).map Station.station_name := by
  unfold elevListOf find_elevation_matches
  rw [assocLookup_map_self hnodup ha]
  rfl

/-- Membership in a station's elevation-match list, under unique names:
exactly the other stations whose elevation lies in the closed band. -/
lemma mem_elevList_iff {stations : List Station}
    (hnodup : (stations.map Station.station_name).Nodup)
    {a : Station} (ha : a ∈ stations) {tol : ℝ} {t : String} :
    t ∈ elevListOf (find_elevation_matches stations tol) a.station_name ↔
      ∃ b ∈ stations, b.station_name = t ∧
        a.elevation - tol ≤ b.elevation ∧ b.elevation ≤ a.elevation + tol ∧
        b.station_name ≠ a.station_name := by
  rw [elevListOf_find hnodup ha]
  simp only [List.mem_map, List.mem_filter, Bool.and_eq_true, decide_eq_true_eq,
    ge_iff_le]
  constructor
  · rintro ⟨b, ⟨hb, ⟨h1, h2⟩, h3⟩, rfl⟩
    exact ⟨b, hb, rfl, h1, h2, h3⟩
  · rintro ⟨b, hb, rfl, h1, h2, h3⟩
    exact ⟨b, ⟨hb, ⟨h1, h2⟩, h3⟩, rfl⟩

/-! ### The range list -/

/-- Membership in a station's `Range` list when the distances come from
`compute_pairwise_distances`, under unique names: exactly the other
stations within `max_distance` (the frame is consulted as row `t`,
column `s`). -/
lemma mem_rangeList_iff {stations : List Station}
    (hnodup : (stations.map Station.station_name).Nodup)
    {s : Station} (hs : s ∈ stations) {maxd : ℝ} {t : String} :
    t ∈ rangeList stations (compute_pairwise_distances stations) maxd
        s.station_name ↔
      ∃ b ∈ stations, b.station_name = t ∧ b ≠ s ∧
        haversine b.latitude b.longitude s.latitude s.longitude ≤ maxd := by
  unfold rangeList
  rw [List.mem_filter, List.mem_filter]
  constructor
  · rintro ⟨⟨htn, hp⟩, hne⟩
    rw [decide_eq_true_eq] at hne
    obtain ⟨b, hb, rfl⟩ := List.mem_map.mp htn
    have hbs : b ≠ s := fun h => hne (congrArg Station.station_name h)
    rw [cpd_lookup_eq hnodup hb hs hbs] at hp
    simp only [decide_eq_true_eq] at hp
    exact ⟨b, hb, rfl, hbs, hp⟩
  · rintro ⟨b, hb, rfl, hbs, hd⟩
    have hne : b.station_name ≠ s.station_name := fun h =>
      hbs (List.inj_on_of_nodup_map hnodup hb hs h)
    refine ⟨⟨List.mem_map_of_mem _ hb, ?_⟩, decide_eq_true hne⟩
    rw [cpd_lookup_eq hnodup hb hs hbs]
    exact decide_eq_true hd

lemma rangeList_subset_names (stations : List Station)
    (distances : List ((String × String) × ℝ)) (maxd : ℝ) (station : String) :
    rangeList stations distances maxd station ⊆
      stations.map Station.station_name := by
  intro t ht
  unfold rangeList at ht
  rw [List.mem_filter] at ht
  exact (List.mem_filter.mp ht.1).1

lemma self_not_mem_rangeList (stations : List Station)
    (distances : List ((String × String) × ℝ)) (maxd : ℝ) (station : String) :
    station ∉ rangeList stations distances maxd station := by
  intro h
  unfold rangeList at h
  rw [List.mem_filter] at h
  exact absurd rfl (of_decide_eq_true h.2)

lemma elevList_subset_names {stations : List Station}
    (hnodup : (stations.map Station.station_name).Nodup)
    {a : Station} (ha : a ∈ stations) (tol : ℝ) :
    elevListOf (find_elevation_matches stations tol) a.station_name ⊆
      stations.map Station.station_name := by
  rw [elevListOf_find hnodup ha]
  intro t ht
  obtain ⟨b, hb, rfl⟩ := List.mem_map.mp ht
  exact List.mem_map_of_mem _ (List.mem_filter.mp hb).1

lemma self_not_mem_elevList {stations : List Station}
    (hnodup : (stations.map Station.station_name).Nodup)
    {a : Station} (ha : a ∈ stations) (tol : ℝ) :
    a.station_name ∉ elevListOf (find_elevation_matches stations tol)
      a.station_name := by
  intro h
  obtain ⟨b, -, hname, -, -, hne⟩ := (mem_elevList_iff hnodup ha).mp h
  exact hne hname

/-! ### Concrete evaluation: two stations, identical coordinates -/

lemma cpd_two (s1 s2 : Station) :
    compute_pairwise_distances [s1, s2] =
      [((s1.station_name, s2.station_name),
        haversine s1.latitude s1.longitude s2.latitude s2.longitude),
       ((s2.station_name, s1.station_name),
        haversine s2.latitude s2.longitude s1.latitude s1.longitude)] := by
  simp [compute_pairwise_distances, List.enum, List.enumFrom]

lemma rangeList_two_same_fst {n1 n2 : String} (h : n1 ≠ n2)
    (lat lon e1 e2 maxd : ℝ) (hmax : 0 ≤ maxd) :
    rangeList [⟨n1, lat, lon, e1⟩, ⟨n2, lat, lon, e2⟩]
      (compute_pairwise_distances [⟨n1, lat, lon, e1⟩, ⟨n2, lat, lon, e2⟩])
      maxd n1 = [n2] := by
  have h0 : decide ((0:ℝ) ≤ maxd) = true := decide_eq_true hmax
  rw [cpd_two]
  simp [rangeList, assocLookup, Prod.mk.injEq, h, Ne.symm h, haversine_self, h0]

lemma rangeList_two_same_snd {n1 n2 : String} (h : n1 ≠ n2)
    (lat lon e1 e2 maxd : ℝ) (hmax : 0 ≤ maxd) :
    rangeList [⟨n1, lat, lon, e1⟩, ⟨n2, lat, lon, e2⟩]
      (compute_pairwise_distances [⟨n1, lat, lon, e1⟩, ⟨n2, lat, lon, e2⟩])
      maxd n2 = [n1] := by
  have h0 : decide ((0:ℝ) ≤ maxd) = true := decide_eq_true hmax
  rw [cpd_two]
  simp [rangeList, assocLookup, Prod.mk.injEq, h, Ne.symm h, haversine_self, h0]

lemma elevListOf_two_same_fst {n1 n2 : String} (h : n1 ≠ n2)
    (lat lon elev tol : ℝ) (htol : 0 ≤ tol) :
    elevListOf
      (find_elevation_matches [⟨n1, lat, lon, elev⟩, ⟨n2, lat, lon, elev⟩] tol)
      n1 = [n2] := by
  have h1 : decide (elev - tol ≤ elev) = true := decide_eq_true (by linarith)
  have h2 : decide (elev ≤ elev + tol) = true := decide_eq_true (by linarith)
  simp [elevListOf, find_elevation_matches, assocLookup, List.filter_cons,
    List.filter_nil, h, Ne.symm h, h1, h2, htol]

lemma elevListOf_two_same_snd {n1 n2 : String} (h : n1 ≠ n2)
    (lat lon elev tol : ℝ) (htol : 0 ≤ tol) :
    elevListOf
      (find_elevation_matches [⟨n1, lat, lon, elev⟩, ⟨n2, lat, lon, elev⟩] tol)
      n2 = [n1] := by
  have h1 : decide (elev - tol ≤ elev) = true := decide_eq_true (by linarith)
  have h2 : decide (elev ≤ elev + tol) = true := decide_eq_true (by linarith)
  simp [elevListOf, find_elevation_matches, assocLookup, List.filter_cons,
    List.filter_nil, h, Ne.symm h, h1, h2, htol]

/-- Scenario 3 of the spec: two distinct-named stations at identical
coordinates and elevations list each other in both fields. -/
lemma table_two_same {n1 n2 : String} (h : n1 ≠ n2) (lat lon elev : ℝ) :
    run_pipeline [⟨n1, lat, lon, elev⟩, ⟨n2, lat, lon, elev⟩] 100 100 =
      [⟨n1, lat, lon, elev, n2, n2⟩, ⟨n2, lat, lon, elev, n1, n1⟩] := by
  unfold run_pipeline create_station_table
  rw [List.map_cons, List.map_cons, List.map_nil]
  rw [show (⟨n1, lat, lon, elev⟩ : Station).station_name = n1 from rfl,
    show (⟨n2, lat, lon, elev⟩ : Station).station_name = n2 from rfl]
  rw [rangeList_two_same_fst h lat lon elev elev 100 (by norm_num),
    rangeList_two_same_snd h lat lon elev elev 100 (by norm_num),
    elevListOf_two_same_fst h lat lon elev 100 (by norm_num),
    elevListOf_two_same_snd h lat lon elev 100 (by norm_num)]
  simp [String.intercalate, String.intercalate.go]

/-! ### Concrete evaluation: spec scenario 1 -/

lemma cpd_three (s1 s2 s3 : Station) :
    compute_pairwise_distances [s1, s2, s3] = [
      ((s1.station_name, s2.station_name),
        haversine s1.latitude s1.longitude s2.latitude s2.longitude),
      ((s1.station_name, s3.station_name),
        haversine s1.latitude s1.longitude s3.latitude s3.longitude),
      ((s2.station_name, s1.station_name),
        haversine s2.latitude s2.longitude s1.latitude s1.longitude),
      ((s2.station_name, s3.station_name),
        haversine s2.latitude s2.longitude s3.latitude s3.longitude),
      ((s3.station_name, s1.station_name),
        haversine s3.latitude s3.longitude s1.latitude s1.longitude),
      ((s3.station_name, s2.station_name),
        haversine s3.latitude s3.longitude s2.latitude s2.longitude)] := by
  simp [compute_pairwise_distances, List.enum, List.enumFrom]

/-- Scenario 1 of the spec (stations A(0,0,0), B(0,1,50), C(0,90,500),
tolerance 100, max distance 100 km), as the code actually computes it:
all `Range` fields are empty, because even the A–B distance
(one degree of longitude on the equator, about 111.19 km) exceeds
100 km. -/
lemma table_scen1 :
    run_pipeline [⟨"A", 0, 0, 0⟩, ⟨"B", 0, 1, 50⟩, ⟨"C", 0, 90, 500⟩] 100 100 =
      [⟨"A", 0, 0, 0, "", "B"⟩, ⟨"B", 0, 1, 50, "", "A"⟩,
       ⟨"C", 0, 90, 500, "", ""⟩] := by
  have hAB : 100 < haversine 0 0 0 1 :=
    haversine_equator_gt_100 0 1 (by norm_num) (by norm_num) (by norm_num)
  have hAC : 100 < haversine 0 0 0 90 :=
    haversine_equator_gt_100 0 90 (by norm_num) (by norm_num) (by norm_num)
  have hBC : 100 < haversine 0 1 0 90 :=
    haversine_equator_gt_100 1 90 (by norm_num) (by norm_num) (by norm_num)
  have dAB : decide (haversine 0 0 0 1 ≤ 100) = false :=
    decide_eq_false (not_le.mpr hAB)
  have dAC : decide (haversine 0 0 0 90 ≤ 100) = false :=
    decide_eq_false (not_le.mpr hAC)
  have dBC : decide (haversine 0 1 0 90 ≤ 100) = false :=
    decide_eq_false (not_le.mpr hBC)
  have dBA : decide (haversine 0 1 0 0 ≤ 100) = false := by
    rw [haversine_comm 0 1 0 0]
    exact dAB
  have dCA : decide (haversine 0 90 0 0 ≤ 100) = false := by
    rw [haversine_comm 0 90 0 0]
    exact dAC
  have dCB : decide (haversine 0 90 0 1 ≤ 100) = false := by
    rw [haversine_comm 0 90 0 1]
    exact dBC
  unfold run_pipeline
  rw [cpd_three]
  simp [create_station_table, rangeList, elevListOf, find_elevation_matches,
    assocLookup, List.filter_cons, List.filter_nil, dAB, dAC, dBA, dBC, dCA, dCB,
    String.intercalate, String.intercalate.go]
  norm_num [String.intercalate.go]

/-! ### Degenerate station sets -/

lemma cpd_single (s : Station) : compute_pairwise_distances [s] = [] := by
  simp [compute_pairwise_distances, List.enum, List.enumFrom]

lemma run_pipeline_single (s : Station) (tol maxd : ℝ) :
    run_pipeline [s] tol maxd =
      [⟨s.station_name, s.latitude, s.longitude, s.elevation, "", ""⟩] := by
  unfold run_pipeline create_station_table
  rw [cpd_single]
  simp [rangeList, elevListOf, find_elevation_matches, assocLookup,
    List.filter_cons, List.filter_nil, String.intercalate]

lemma mem_rangeList_ne {stations : List Station}
    {distances : List ((String × String) × ℝ)} {maxd : ℝ} {station t : String}
    (h : t ∈ rangeList stations distances maxd station) : t ≠ station := by
  unfold rangeList at h
  rw [List.mem_filter] at h
  exact of_decide_eq_true h.2

/-! ### Claims -/

/-- C1 (counterexample): the spec's scenario-1 expectation is false on
the code: the `Range` column of the pipeline output for A(0,0,0),
B(0,1,50), C(0,90,500) with max-distance 100 and tolerance 100 is not
["B", "A", ""] — the A–B distance (about 111.19 km) already exceeds
100 km, so A's `Range` is empty. -/
theorem c1_counterexample :
    (run_pipeline [⟨"A", 0, 0, 0⟩, ⟨"B", 0, 1, 50⟩, ⟨"C", 0, 90, 500⟩]
        100 100).map OutputRecord.Range ≠ ["B", "A", ""] := by
  rw [table_scen1]
  simp

/-- C1 (amended): for the station set A(0,0,0), B(0,1,50), C(0,90,500)
with max-distance 100 km and tolerance 100, the pipeline produces
A.Range = "", A.Elevation = "B", B.Range = "", B.Elevation = "A",
C.Range = "", C.Elevation = "" — all `Range` fields are empty because
even the closest pair A–B is about 111.19 km apart. -/
theorem c1_scenario1 :
    run_pipeline [⟨"A", 0, 0, 0⟩, ⟨"B", 0, 1, 50⟩, ⟨"C", 0, 90, 500⟩] 100 100 =
      [⟨"A", 0, 0, 0, "", "B"⟩, ⟨"B", 0, 1, 50, "", "A"⟩,
       ⟨"C", 0, 90, 500, "", ""⟩] :=
  table_scen1

/-- C2: for every station set with unique names and every station `s`,
each name `t` in `s`'s `Range` list satisfies `t ≠ s` and names a
station within `max_distance` of `s`, and the record's `Range` string is
the `"; "`-join of that list. -/
theorem c2_range_sound (stations : List Station)
    (hnodup : (stations.map Station.station_name).Nodup)
    (tol maxd : ℝ) (s : Station) (hs : s ∈ stations) :
    (∀ t ∈ rangeList stations (compute_pairwise_distances stations) maxd
        s.station_name,
      t ≠ s.station_name ∧ ∃ b ∈ stations, b.station_name = t ∧
        haversine s.latitude s.longitude b.latitude b.longitude ≤ maxd) ∧
    ∀ r ∈ run_pipeline stations tol maxd, r.station_name = s.station_name →
      r.Range = String.intercalate "; "
        (rangeList stations (compute_pairwise_distances stations) maxd
          s.station_name) := by
  constructor
  · intro t ht
    obtain ⟨b, hb, hbt, hbs, hd⟩ := (mem_rangeList_iff hnodup hs).mp ht
    refine ⟨mem_rangeList_ne ht, b, hb, hbt, ?_⟩
    rw [haversine_comm]
    exact hd
  · intro r hr hname
    obtain ⟨s', hs', rfl⟩ := List.mem_map.mp hr
    have : s' = s := List.inj_on_of_nodup_map hnodup hs' hs hname
    subst this
    rfl

/-- C2 witness: in the two-station set A, B at identical coordinates,
"B" is in A's range list and the theorem yields the claimed bound. -/
theorem c2_witness :
    "B" ≠ "A" ∧ ∃ b ∈ [(⟨"A", 0, 0, 0⟩ : Station), ⟨"B", 0, 0, 0⟩],
      b.station_name = "B" ∧ haversine 0 0 b.latitude b.longitude ≤ 100 := by
  have hmem : "B" ∈ rangeList [(⟨"A", 0, 0, 0⟩ : Station), ⟨"B", 0, 0, 0⟩]
      (compute_pairwise_distances
        [(⟨"A", 0, 0, 0⟩ : Station), ⟨"B", 0, 0, 0⟩]) 100 "A" := by
    rw [rangeList_two_same_fst (by decide) 0 0 0 0 100 (by norm_num)]
    exact List.mem_singleton.mpr rfl
  exact (c2_range_sound [⟨"A", 0, 0, 0⟩, ⟨"B", 0, 0, 0⟩] (by simp) 100 100
    ⟨"A", 0, 0, 0⟩ (by simp)).1 "B" hmem

/-- C3: under unique names, every name in a station's elevation-match
list names a station whose elevation differs from the station's by at
most the tolerance, and a station never matches itself. -/
theorem c3_elevation_sound (stations : List Station)
    (hnodup : (stations.map Station.station_name).Nodup)
    (tol : ℝ) (a : Station) (ha : a ∈ stations) :
    (∀ t ∈ elevListOf (find_elevation_matches stations tol) a.station_name,
      ∀ b ∈ stations, b.station_name = t → |a.elevation - b.elevation| ≤ tol) ∧
    a.station_name ∉ elevListOf (find_elevation_matches stations tol)
      a.station_name := by
  constructor
  · intro t ht b hb hbt
    obtain ⟨b', hb', hb't, h1, h2, hne⟩ := (mem_elevList_iff hnodup ha).mp ht
    have : b' = b := List.inj_on_of_nodup_map hnodup hb' hb (hb't.trans hbt.symm)
    subst this
    rw [abs_le]
    constructor <;> linarith
  · exact self_not_mem_elevList hnodup ha tol

/-- C3 witness: concrete two-station instance of the elevation bound
and the self-exclusion. -/
theorem c3_witness :
    |(0:ℝ) - 0| ≤ 100 ∧
      "A" ∉ elevListOf (find_elevation_matches
        [(⟨"A", 0, 0, 0⟩ : Station), ⟨"B", 0, 0, 0⟩] 100) "A" := by
  have h := c3_elevation_sound [(⟨"A", 0, 0, 0⟩ : Station), ⟨"B", 0, 0, 0⟩]
    (by simp) 100 ⟨"A", 0, 0, 0⟩ (by simp)
  refine ⟨?_, h.2⟩
  refine h.1 "B" ?_ ⟨"B", 0, 0, 0⟩ (by simp) rfl
  rw [elevListOf_two_same_fst (by decide) 0 0 0 100 (by norm_num)]
  exact List.mem_singleton.mpr rfl

/-- C4: under unique names the distance relation holds, for distinct
stations `a`, `b`, exactly the direct haversine evaluation under the key
`(a, b)`, and has no entry at the self pair `(a, a)`. -/
theorem c4_matrix (stations : List Station)
    (hnodup : (stations.map Station.station_name).Nodup)
    (a : Station) (ha : a ∈ stations) (b : Station) (hb : b ∈ stations)
    (hab : a ≠ b) :
    assocLookup (a.station_name, b.station_name)
        (compute_pairwise_distances stations) =
      some (haversine a.latitude a.longitude b.latitude b.longitude) ∧
    assocLookup (a.station_name, a.station_name)
        (compute_pairwise_distances stations) = none :=
  ⟨cpd_lookup_eq hnodup ha hb hab, cpd_lookup_self hnodup a.station_name⟩

/-- C4 witness: concrete two-station instance. -/
theorem c4_witness :
    assocLookup ("A", "B") (compute_pairwise_distances
        [(⟨"A", 0, 0, 0⟩ : Station), ⟨"B", 0, 0, 0⟩]) =
      some (haversine 0 0 0 0) ∧
    assocLookup ("A", "A") (compute_pairwise_distances
        [(⟨"A", 0, 0, 0⟩ : Station), ⟨"B", 0, 0, 0⟩]) = none :=
  c4_matrix [⟨"A", 0, 0, 0⟩, ⟨"B", 0, 0, 0⟩] (by simp) ⟨"A", 0, 0, 0⟩ (by simp)
    ⟨"B", 0, 0, 0⟩ (by simp) (by simp [Station.mk.injEq])

/-- C5: the distance function is symmetric in its two points and zero
on coincident points. -/
theorem c5_symm_zero :
    (∀ lat1 lon1 lat2 lon2 : ℝ,
      haversine lat1 lon1 lat2 lon2 = haversine lat2 lon2 lat1 lon1) ∧
    ∀ lat lon : ℝ, haversine lat lon lat lon = 0 :=
  ⟨haversine_comm, haversine_self⟩

/-- C6: a station set of size 0 or 1 yields a table of 0 or 1 records,
with empty `Range` and `Elevation` strings; all three pipeline stages
are total functions, so no error can occur. -/
theorem c6_degenerate (s : Station) (tol maxd : ℝ) :
    run_pipeline ([] : List Station) tol maxd = [] ∧
    run_pipeline [s] tol maxd =
      [⟨s.station_name, s.latitude, s.longitude, s.elevation, "", ""⟩] :=
  ⟨rfl, run_pipeline_single s tol maxd⟩

/-- C7: under unique names, every name in a record's `Range` and
`Elevation` lists is a station name of the input set and never the
record's own name; the record built from those lists is in the output
table. -/
theorem c7_invariant (stations : List Station)
    (hnodup : (stations.map Station.station_name).Nodup)
    (tol maxd : ℝ) (s : Station) (hs : s ∈ stations) :
    (∀ t ∈ rangeList stations (compute_pairwise_distances stations) maxd
        s.station_name,
      t ∈ stations.map Station.station_name ∧ t ≠ s.station_name) ∧
    (∀ t ∈ elevListOf (find_elevation_matches stations tol) s.station_name,
      t ∈ stations.map Station.station_name ∧ t ≠ s.station_name) ∧
    ({ station_name := s.station_name, latitude := s.latitude,
       longitude := s.longitude, elevation := s.elevation,
       Range := String.intercalate "; " (rangeList stations
         (compute_pairwise_distances stations) maxd s.station_name),
       Elevation := String.intercalate "; " (elevListOf
         (find_elevation_matches stations tol) s.station_name) } :
      OutputRecord) ∈ run_pipeline stations tol maxd := by
  refine ⟨?_, ?_, ?_⟩
  · intro t ht
    exact ⟨rangeList_subset_names stations _ maxd s.station_name ht,
      mem_rangeList_ne ht⟩
  · intro t ht
    obtain ⟨b, -, hbt, -, -, hne⟩ := (mem_elevList_iff hnodup hs).mp ht
    exact ⟨elevList_subset_names hnodup hs tol ht, hbt ▸ hne⟩
  · exact List.mem_map_of_mem _ hs

/-- C7 witness: the record for A in the two-station set is in the
output table. -/
theorem c7_witness :
    ({ station_name := "A", latitude := 0, longitude := 0, elevation := 0,
       Range := String.intercalate "; " (rangeList
         [(⟨"A", 0, 0, 0⟩ : Station), ⟨"B", 0, 0, 0⟩]
         (compute_pairwise_distances
           [(⟨"A", 0, 0, 0⟩ : Station), ⟨"B", 0, 0, 0⟩]) 100 "A"),
       Elevation := String.intercalate "; " (elevListOf
         (find_elevation_matches
           [(⟨"A", 0, 0, 0⟩ : Station), ⟨"B", 0, 0, 0⟩] 100) "A") } :
      OutputRecord) ∈
      run_pipeline [(⟨"A", 0, 0, 0⟩ : Station), ⟨"B", 0, 0, 0⟩] 100 100 :=
  (c7_invariant [⟨"A", 0, 0, 0⟩, ⟨"B", 0, 0, 0⟩] (by simp) 100 100
    ⟨"A", 0, 0, 0⟩ (by simp)).2.2

/-- C8: the pipeline is deterministic — re-running it on the same
station set and parameters yields the identical table — and the output
records appear in exactly the input station order. -/
theorem c8_deterministic (stations : List Station) (tol maxd : ℝ) :
    run_pipeline stations tol maxd = run_pipeline stations tol maxd ∧
    (run_pipeline stations tol maxd).map OutputRecord.station_name =
      stations.map Station.station_name := by
  refine ⟨rfl, ?_⟩
  unfold run_pipeline create_station_table
  rw [List.map_map]
  rfl

/-- C9: two stations with distinct names but identical coordinates and
elevations are at distance 0 and each lists the other in both `Range`
and `Elevation`. -/
theorem c9_two_identical (n1 n2 : String) (lat lon elev : ℝ) (h : n1 ≠ n2) :
    haversine lat lon lat lon = 0 ∧
    run_pipeline [⟨n1, lat, lon, elev⟩, ⟨n2, lat, lon, elev⟩] 100 100 =
      [⟨n1, lat, lon, elev, n2, n2⟩, ⟨n2, lat, lon, elev, n1, n1⟩] :=
  ⟨haversine_self lat lon, table_two_same h lat lon elev⟩

/-- C9 witness: the concrete instance with names "A", "B" at the
origin. -/
theorem c9_witness :
    haversine 0 0 0 0 = 0 ∧
    run_pipeline [⟨"A", 0, 0, 0⟩, ⟨"B", 0, 0, 0⟩] 100 100 =
      [⟨"A", 0, 0, 0, "B", "B"⟩, ⟨"B", 0, 0, 0, "A", "A"⟩] :=
  c9_two_identical "A" "B" 0 0 0 (by decide)

/-- C10: with one shared tolerance, the elevation-match relation is
symmetric: for distinct stations of a uniquely-named set, each is in
the other's match set or neither is. -/
theorem c10_elev_symmetric (stations : List Station)
    (hnodup : (stations.map Station.station_name).Nodup)
    (tol : ℝ) (a : Station) (ha : a ∈ stations) (b : Station)
    (hb : b ∈ stations) (hab : a ≠ b) :
    (b.station_name ∈ elevListOf (find_elevation_matches stations tol)
        a.station_name ↔
      a.station_name ∈ elevListOf (find_elevation_matches stations tol)
        b.station_name) := by
  have hne : a.station_name ≠ b.station_name := fun h =>
    hab (List.inj_on_of_nodup_map hnodup ha hb h)
  rw [mem_elevList_iff hnodup ha, mem_elevList_iff hnodup hb]
  constructor
  · rintro ⟨b', hb', hb'n, h1, h2, hne'⟩
    have : b' = b := List.inj_on_of_nodup_map hnodup hb' hb hb'n
    subst this
    exact ⟨a, ha, rfl, by linarith, by linarith, hne⟩
  · rintro ⟨a', ha', ha'n, h1, h2, hne'⟩
    have : a' = a := List.inj_on_of_nodup_map hnodup ha' ha ha'n
    subst this
    exact ⟨b, hb, rfl, by linarith, by linarith, hne.symm⟩

/-- C10 witness: the concrete two-station instance of the symmetry. -/
theorem c10_witness :
    ("B" ∈ elevListOf (find_elevation_matches
        [(⟨"A", 0, 0, 0⟩ : Station), ⟨"B", 0, 0, 0⟩] 100) "A" ↔
      "A" ∈ elevListOf (find_elevation_matches
        [(⟨"A", 0, 0, 0⟩ : Station), ⟨"B", 0, 0, 0⟩] 100) "B") :=
  c10_elev_symmetric [⟨"A", 0, 0, 0⟩, ⟨"B", 0, 0, 0⟩] (by simp) 100
    ⟨"A", 0, 0, 0⟩ (by simp) ⟨"B", 0, 0, 0⟩ (by simp)
    (by simp [Station.mk.injEq])
